import Mathlib

/-!
Shallow embedding of `core/bin/witness_generator/src/scheduler.rs`: the
scheduler-stage witness generator of the staged proof-aggregation pipeline.
Machine integers (u32 batch numbers, u8 circuit ids, u16 sequence numbers)
are modelled as `Nat`; none of the embedded operations performs arithmetic
that could overflow, so no modular reduction is needed.  Rust `panic!` and
`Result::unwrap()` are modelled by the `Outcome` type below; external
collaborators (object store, database connection, vk setup data server) are
modelled as records of functions supplied to the embedded operations.
-/

/-- Aggregation round of the proof pipeline (`zksync_types::proofs::AggregationRound`). -/
inductive AggregationRound
  | BasicCircuits
  | LeafAggregation
  | NodeAggregation
  | Scheduler
deriving DecidableEq, Repr

/-- Blob-store key for a circuit artifact (`zksync_object_store::FriCircuitKey`). -/
structure FriCircuitKey where
  block_number : Nat
  circuit_id : Nat
  sequence_number : Nat
  depth : Nat
  aggregation_round : AggregationRound
deriving DecidableEq, Repr

/-- An opaque recursion-layer proof (`ZkSyncRecursionProof`); its payload is abstract. -/
structure ZkSyncRecursionProof where
  data : Nat
deriving DecidableEq, Repr

/-- Storage wrapper around a recursive-layer proof; `inner` models `into_inner()`. -/
structure ZkSyncRecursionLayerProof where
  inner : ZkSyncRecursionProof
deriving DecidableEq, Repr

/-- Proof wrapper fetched from the blob store (`crate::utils::FriProofWrapper`):
either a base-layer proof or a recursive-layer proof. -/
inductive FriProofWrapper
  | Base (proof : Nat)
  | Recursive (proof : ZkSyncRecursionLayerProof)
deriving DecidableEq, Repr

/-- Verification-key payload; `fixed_parameters` is the field read by
`process_job_sync`, `key_data` stands for the remaining opaque fields. -/
structure VerificationKeyInner where
  fixed_parameters : Nat
  key_data : Nat
deriving DecidableEq, Repr

/-- Storage wrapper for a recursion-layer verification key
(`ZkSyncRecursionLayerVerificationKey`); `inner` models `into_inner()`. -/
structure ZkSyncRecursionLayerVerificationKey where
  inner : VerificationKeyInner
deriving DecidableEq, Repr

/-- The scheduler circuit instance witness
(`SchedulerCircuitInstanceWitness`): only the three fields written by
`prepare_job` are modelled explicitly; `other_fields` stands for the rest of
the payload fetched from the blob store, which `prepare_job` leaves untouched. -/
structure SchedulerCircuitInstanceWitness where
  node_layer_vk_witness : VerificationKeyInner
  proof_witnesses : List ZkSyncRecursionProof
  leaf_layer_parameters : List Nat
  other_fields : Nat
deriving DecidableEq, Repr

/-- Wrapper under which the partial witness input is stored in the blob store
(`crate::utils::SchedulerPartialInputWrapper`), a one-field tuple struct. -/
structure SchedulerPartialInputWrapper where
  inner : SchedulerCircuitInstanceWitness
deriving DecidableEq, Repr

/-- The job record prepared for the scheduler stage (`SchedulerWitnessGeneratorJob`). -/
structure SchedulerWitnessGeneratorJob where
  block_number : Nat
  scheduler_witness : SchedulerCircuitInstanceWitness
  node_vk : ZkSyncRecursionLayerVerificationKey
deriving DecidableEq, Repr

/-- Modelled from the spec: `recursion_layer_proof_config()` from the external
`circuit_definitions` crate, a fixed cryptographic parameter loaded once per
process.  Its value is opaque to this core. -/
def recursion_layer_proof_config : Nat := 0

/-- Modelled from the spec: `SCHEDULER_CAPACITY` from the external
`circuit_definitions` crate, the process's fixed capacity constant. -/
def SCHEDULER_CAPACITY : Nat := 1

/-- Configuration assembled by `process_job_sync` (`SchedulerConfig`). -/
structure SchedulerConfig where
  proof_config : Nat
  vk_fixed_parameters : Nat
  capacity : Nat
deriving DecidableEq, Repr

/-- The terminal scheduler circuit (`SchedulerCircuit`); `transcript_params`
is the unit value in the source and is omitted. -/
structure SchedulerCircuit where
  witness : SchedulerCircuitInstanceWitness
  config : SchedulerConfig
deriving DecidableEq, Repr

/-- Recursive-layer circuit (`ZkSyncRecursiveLayerCircuit`); only the
`SchedulerCircuit` variant is constructed by this module. -/
inductive ZkSyncRecursiveLayerCircuit
  | SchedulerCircuit (circuit : SchedulerCircuit)
deriving DecidableEq, Repr

/-- Output of the compute step (`SchedulerArtifacts`). -/
structure SchedulerArtifacts where
  scheduler_circuit : ZkSyncRecursiveLayerCircuit
deriving DecidableEq, Repr

/-- Wrapper under which circuits are stored in the blob store
(`crate::utils::CircuitWrapper`). -/
inductive CircuitWrapper
  | Base (circuit : Nat)
  | Recursive (circuit : ZkSyncRecursiveLayerCircuit)
deriving DecidableEq, Repr

/-- Result of running a piece of Rust code that may `panic!` (directly or via
`Result::unwrap()`): either a value or an uncontrolled process abort carrying
the panic message. -/
inductive Outcome (α : Type)
  | ok (value : α)
  | panicked (msg : String)
deriving DecidableEq, Repr

/-- Sequencing of possibly-panicking computations: a panic propagates. -/
def Outcome.bind : Outcome α → (α → Outcome β) → Outcome β
  | .ok a, f => f a
  | .panicked m, _ => .panicked m

@[simp]
theorem Outcome.bind_ok (a : α) (f : α → Outcome β) : Outcome.bind (.ok a) f = f a := rfl

@[simp]
theorem Outcome.bind_panicked (m : String) (f : α → Outcome β) :
    Outcome.bind (Outcome.panicked m : Outcome α) f = .panicked m := rfl

/-- Rust `Result::unwrap()`: the success value, or a panic carrying the error. -/
def unwrapResult : Except String α → Outcome α
  | .ok a => .ok a
  | .error e => .panicked e

@[simp]
theorem unwrapResult_ok (a : α) : unwrapResult (Except.ok a) = Outcome.ok a := rfl

@[simp]
theorem unwrapResult_error (e : String) :
    unwrapResult (Except.error e : Except String α) = Outcome.panicked e := rfl

/-- Model of the external blob store (`zksync_object_store::ObjectStore`) as
seen by this module: typed `get` for the partial witness input (keyed by batch
number), typed `get` for proof wrappers (keyed by prover job id), and `put`
for circuit wrappers, returning the blob url.  Each operation may fail with a
storage error. -/
structure ObjectStore where
  get_scheduler_partial_input : Nat → Except String SchedulerPartialInputWrapper
  get_proof : Nat → Except String FriProofWrapper
  put_circuit : FriCircuitKey → CircuitWrapper → Except String String

/-- Model of the prover database connection as seen by `get_next_job`: the
next ready scheduler witness job, if any, and the ordered list of final prover
job ids recorded by the dependency tracker for a batch. -/
structure ProverConnection where
  get_next_scheduler_witness_job : Option Nat
  get_final_prover_job_ids_for : Nat → List Nat

/-- Modelled from the spec: the static topology width of the leaf-layer
parameter table (`NUM_BASE_LAYER_CIRCUITS`, the length of the fixed-size
array type of `leaf_layer_parameters`). -/
def NUM_BASE_LAYER_CIRCUITS : Nat := 13

/-- Modelled from the spec: the external vk setup data server
(`zksync_vk_setup_data_server_fri`): `get_recursive_layer_vk_for_circuit_type`
for the node-layer circuit, and `get_leaf_vk_params` returning the list of
(circuit type, leaf parameters) pairs. -/
structure VkSetupData where
  node_layer_vk : ZkSyncRecursionLayerVerificationKey
  leaf_vk_commits : List (Nat × Nat)

/-- Rust `Vec::try_into()` into a fixed-size array of length `n`: succeeds
exactly when the lengths agree; it never pads or truncates. -/
def tryIntoFixedArray (n : Nat) (xs : List α) : Except String (List α) :=
  if xs.length = n then .ok xs
  else .error "could not convert vector into fixed-size array"

/-- Modelled from the spec: `load_proofs_for_job_ids` from the missing
`utils` module — fetch from the blob store, in resolver-given order, one proof
wrapper per upstream prover job id; a storage failure panics. -/
def load_proofs_for_job_ids (job_ids : List Nat) (object_store : ObjectStore) :
    Outcome (List FriProofWrapper) :=
  match job_ids with
  | [] => .ok []
  | i :: rest =>
    (unwrapResult (object_store.get_proof i)).bind fun p =>
      (load_proofs_for_job_ids rest object_store).bind fun ps => .ok (p :: ps)

/-- The `map`/`collect` in `get_next_job` (lines 126-137): extract the inner
recursive proof from every wrapper, panicking on the first `Base` wrapper with
the message of the source's `panic!`. -/
def unwrap_recursive_proofs (l1_batch_number : Nat) :
    List FriProofWrapper → Outcome (List ZkSyncRecursionProof)
  | [] => .ok []
  | FriProofWrapper.Base _ :: _ =>
      .panicked ("Expected only recursive proofs for scheduler l1 batch "
        ++ toString l1_batch_number)
  | FriProofWrapper.Recursive recursive_proof :: rest =>
      (unwrap_recursive_proofs l1_batch_number rest).bind fun ps =>
        .ok (recursive_proof.inner :: ps)

/-- `prepare_job` (lines 211-245): fetch the node-layer vk and the batch's
partial witness input, overwrite the input's vk field, install the ordered
proof list, and attach the leaf-layer parameter table after the fixed-length
conversion check.  Storage failures and a length mismatch panic (`unwrap`). -/
def prepare_job (setup : VkSetupData) (l1_batch_number : Nat)
    (proofs : List ZkSyncRecursionProof) (object_store : ObjectStore) :
    Outcome SchedulerWitnessGeneratorJob :=
  let node_vk := setup.node_layer_vk
  (unwrapResult (object_store.get_scheduler_partial_input l1_batch_number)).bind
    fun wrapper =>
      let scheduler_witness := wrapper.inner
      let scheduler_witness :=
        { scheduler_witness with node_layer_vk_witness := node_vk.inner }
      let scheduler_witness := { scheduler_witness with proof_witnesses := proofs }
      let leaf_vk_commits := setup.leaf_vk_commits
      (unwrapResult (tryIntoFixedArray NUM_BASE_LAYER_CIRCUITS
          (leaf_vk_commits.map (fun el => el.2)))).bind fun leaf_layer_params =>
        .ok
          { block_number := l1_batch_number
            scheduler_witness :=
              { scheduler_witness with leaf_layer_parameters := leaf_layer_params }
            node_vk := node_vk }

/-- `get_next_job` (lines 108-142): claim the next ready scheduler witness
job, load the dependency proofs in tracker order, extract the recursive
proofs, and prepare the job. -/
def get_next_job (conn : ProverConnection) (setup : VkSetupData)
    (object_store : ObjectStore) :
    Outcome (Option (Nat × SchedulerWitnessGeneratorJob)) :=
  match conn.get_next_scheduler_witness_job with
  | none => .ok none
  | some l1_batch_number =>
    let proof_job_ids := conn.get_final_prover_job_ids_for l1_batch_number
    (load_proofs_for_job_ids proof_job_ids object_store).bind fun proofs =>
      (unwrap_recursive_proofs l1_batch_number proofs).bind fun recursive_proofs =>
        (prepare_job setup l1_batch_number recursive_proofs object_store).bind
          fun job => .ok (some (l1_batch_number, job))

/-- `process_job_sync` (lines 60-97): assemble the scheduler config from the
job's node vk and the process constants, and wrap the job's witness into the
terminal scheduler circuit.  `started_at` feeds only logging and metrics. -/
def process_job_sync (job : SchedulerWitnessGeneratorJob) (started_at : Nat) :
    SchedulerArtifacts :=
  let _ := started_at
  let config : SchedulerConfig :=
    { proof_config := recursion_layer_proof_config
      vk_fixed_parameters := job.node_vk.inner.fixed_parameters
      capacity := SCHEDULER_CAPACITY }
  let scheduler_circuit : SchedulerCircuit :=
    { witness := job.scheduler_witness, config := config }
  { scheduler_circuit := ZkSyncRecursiveLayerCircuit.SchedulerCircuit scheduler_circuit }

/-- Handle of a task dispatched to the blocking-worker pool
(`tokio::task::JoinHandle`); awaiting it yields the worker's result. -/
structure JoinHandle (α : Type) where
  result : α

/-- `tokio::task::spawn_blocking`: run the closure on the worker pool. -/
def spawn_blocking (f : Unit → α) : JoinHandle α := { result := f () }

/-- Awaiting a join handle yields the completed task's value. -/
def await_handle (h : JoinHandle α) : α := h.result

/-- `process_job` (lines 153-160): dispatch `process_job_sync` onto the
blocking-worker pool and return the handle. -/
def process_job (job : SchedulerWitnessGeneratorJob) (started_at : Nat) :
    JoinHandle SchedulerArtifacts :=
  spawn_blocking (fun _ => process_job_sync job started_at)

/-- Ledger (prover database) writes issued by this module. -/
inductive LedgerWrite
  | insertProverJob (block_number : Nat) (circuit_id : Nat) (depth : Nat)
      (sequence_number : Nat) (aggregation_round : AggregationRound)
      (blob_url : String) (is_node_final_proof : Bool)
  | markSchedulerJobAsSuccessful (block_number : Nat)
  | markSchedulerJobFailed (error : String) (block_number : Nat)
deriving DecidableEq, Repr

/-- Externally visible effects of `save_result` / `save_failure`: a blob-store
put (committed as soon as it returns), an atomically committed ledger
transaction, or a single standalone ledger write. -/
inductive Effect
  | putBlob (key : FriCircuitKey) (value : CircuitWrapper) (returned_url : String)
  | ledgerTxnCommit (writes : List LedgerWrite)
  | ledgerWrite (write : LedgerWrite)
deriving DecidableEq, Repr

/-- The blob-store key under which `save_result` stores the terminal circuit
for a batch (lines 168-174). -/
def schedulerCircuitKey (job_id : Nat) : FriCircuitKey :=
  { block_number := job_id
    circuit_id := 1
    sequence_number := 0
    depth := 0
    aggregation_round := AggregationRound.Scheduler }

/-- `save_result` (lines 162-208): put the wrapped terminal circuit into the
blob store under the deterministic key (panicking on a storage error, via
`unwrap`), then commit one ledger transaction that inserts the downstream
prover-job row and marks the scheduler job successful.  The returned trace
lists the externally visible effects in program order. -/
def save_result (object_store : ObjectStore) (job_id : Nat)
    (artifacts : SchedulerArtifacts) : Outcome (List Effect) :=
  let key := schedulerCircuitKey job_id
  let wrapped := CircuitWrapper.Recursive artifacts.scheduler_circuit
  (unwrapResult (object_store.put_circuit key wrapped)).bind
    fun scheduler_circuit_blob_url =>
      .ok
        [ Effect.putBlob key wrapped scheduler_circuit_blob_url,
          Effect.ledgerTxnCommit
            [ LedgerWrite.insertProverJob job_id 1 0 0 AggregationRound.Scheduler
                scheduler_circuit_blob_url false,
              LedgerWrite.markSchedulerJobAsSuccessful job_id ] ]

/-- `save_failure` (lines 144-151): record the error and mark the scheduler
job failed; a single ledger write, no blob-store operation. -/
def save_failure (job_id : Nat) (error : String) : List Effect :=
  [Effect.ledgerWrite (LedgerWrite.markSchedulerJobFailed error job_id)]

/-- Status of a scheduler witness job row as far as this module writes it. -/
inductive JobStatus
  | Succeeded
  | Failed (error : String)
deriving DecidableEq, Repr

/-- Shared persistent state observable by any engine instance: the blob store
contents, the inserted prover-job rows, and the scheduler witness job
statuses (most recent entry first). -/
structure WorldState where
  blobs : List (FriCircuitKey × CircuitWrapper)
  prover_jobs : List LedgerWrite
  scheduler_job_status : List (Nat × JobStatus)
deriving DecidableEq, Repr

/-- The world before any effect of the operation under study. -/
def emptyWorldState : WorldState :=
  { blobs := [], prover_jobs := [], scheduler_job_status := [] }

/-- Apply one ledger write to the shared state. -/
def applyLedgerWrite (s : WorldState) : LedgerWrite → WorldState
  | LedgerWrite.insertProverJob bn cid depth seq round url fin =>
      { s with prover_jobs :=
          s.prover_jobs ++ [LedgerWrite.insertProverJob bn cid depth seq round url fin] }
  | LedgerWrite.markSchedulerJobAsSuccessful bn =>
      { s with scheduler_job_status := (bn, JobStatus.Succeeded) :: s.scheduler_job_status }
  | LedgerWrite.markSchedulerJobFailed e bn =>
      { s with scheduler_job_status := (bn, JobStatus.Failed e) :: s.scheduler_job_status }

/-- Apply one effect to the shared state; a `ledgerTxnCommit` applies all its
writes in this single step — between two observable states either all of the
transaction's writes have landed or none. -/
def applyEffect (s : WorldState) : Effect → WorldState
  | Effect.putBlob key value _ => { s with blobs := (key, value) :: s.blobs }
  | Effect.ledgerTxnCommit writes => writes.foldl applyLedgerWrite s
  | Effect.ledgerWrite w => applyLedgerWrite s w

/-- Apply a whole effect trace. -/
def applyEffects (s : WorldState) (trace : List Effect) : WorldState :=
  trace.foldl applyEffect s

/-- All states another engine instance can observe while the trace executes:
the state after each prefix of the trace (including the empty and the full
prefix).  Effects are the atomic units; nothing between them is visible. -/
def statesAfterPrefixes (s : WorldState) : List Effect → List WorldState
  | [] => [s]
  | e :: rest => s :: statesAfterPrefixes (applyEffect s e) rest

/-- Whether a blob is stored under the given key. -/
def blobStored (s : WorldState) (key : FriCircuitKey) : Bool :=
  s.blobs.any (fun p => p.1 = key)

/-- Whether a prover-job row for the given batch has been inserted. -/
def proverJobInserted (s : WorldState) (block_number : Nat) : Bool :=
  s.prover_jobs.any (fun w =>
    match w with
    | LedgerWrite.insertProverJob bn _ _ _ _ _ _ => bn = block_number
    | _ => false)

/-- Current status of a scheduler witness job (most recent write wins). -/
def schedulerJobStatus (s : WorldState) (block_number : Nat) : Option JobStatus :=
  (s.scheduler_job_status.find? (fun p => p.1 = block_number)).map (fun p => p.2)

/-- Whether the scheduler witness job is marked succeeded. -/
def schedulerSucceeded (s : WorldState) (block_number : Nat) : Bool :=
  schedulerJobStatus s block_number = some JobStatus.Succeeded

/-- The key of a blob-store put effect, if the effect is one. -/
def putBlobKey : Effect → Option FriCircuitKey
  | Effect.putBlob key _ _ => some key
  | _ => none

/-- All ledger writes an effect trace carries, in order. -/
def ledgerWritesOf (trace : List Effect) : List LedgerWrite :=
  trace.foldr
    (fun e acc =>
      match e with
      | Effect.putBlob _ _ _ => acc
      | Effect.ledgerTxnCommit ws => ws ++ acc
      | Effect.ledgerWrite w => w :: acc)
    []

/-- Whether a ledger write is a prover-job row insertion. -/
def isInsertProverJob : LedgerWrite → Bool
  | LedgerWrite.insertProverJob _ _ _ _ _ _ _ => true
  | _ => false

/-- A concrete partial witness input used by witnesses and counterexamples. -/
def witnessFix : SchedulerCircuitInstanceWitness :=
  { node_layer_vk_witness := { fixed_parameters := 3, key_data := 4 }
    proof_witnesses := []
    leaf_layer_parameters := []
    other_fields := 9 }

/-- A concrete vk setup fixture whose leaf-parameter list has the static width. -/
def setupFix : VkSetupData :=
  { node_layer_vk := { inner := { fixed_parameters := 5, key_data := 6 } }
    leaf_vk_commits := (List.range NUM_BASE_LAYER_CIRCUITS).map (fun i => (i, i + 100)) }

/-- A concrete healthy object store fixture. -/
def storeFix : ObjectStore :=
  { get_scheduler_partial_input := fun _ => Except.ok { inner := witnessFix }
    get_proof := fun i => Except.ok (FriProofWrapper.Recursive { inner := { data := i } })
    put_circuit := fun _ _ => Except.ok "blob_url_fix" }

/-- A concrete terminal artifact fixture. -/
def artifactFix : SchedulerArtifacts :=
  { scheduler_circuit := ZkSyncRecursiveLayerCircuit.SchedulerCircuit
      { witness := witnessFix
        config := { proof_config := 0, vk_fixed_parameters := 5, capacity := 1 } } }

/-- A connection fixture whose next ready batch is 5 with one dependency job. -/
def connBaseFix : ProverConnection :=
  { get_next_scheduler_witness_job := some 5
    get_final_prover_job_ids_for := fun _ => [11] }

/-- An object store fixture that returns a base-kind proof wrapper. -/
def storeBaseFix : ObjectStore :=
  { get_scheduler_partial_input := fun _ => Except.ok { inner := witnessFix }
    get_proof := fun _ => Except.ok (FriProofWrapper.Base 0)
    put_circuit := fun _ _ => Except.ok "blob_url_fix" }

/-- An object store fixture whose every operation fails with a storage error. -/
def storeFailFix : ObjectStore :=
  { get_scheduler_partial_input := fun _ => Except.error "storage failure"
    get_proof := fun _ => Except.error "storage failure"
    put_circuit := fun _ _ => Except.error "storage failure" }

/-- C7: awaiting the handle returned by `process_job`, which dispatches the
build onto the blocking-worker pool, yields exactly the artifacts of the
synchronous computation `process_job_sync` on the same job and start instant:
offloading changes where the work runs, not its result. -/
theorem c7_offload_preserves_result (job : SchedulerWitnessGeneratorJob)
    (started_at : Nat) :
    await_handle (process_job job started_at) = process_job_sync job started_at := rfl

/-- C8: `save_failure` records the error message and marks the job `Failed`
in the ledger, and changes nothing else: its trace is a single ledger write,
it performs no blob-store operation, and it leaves the blob store and the
prover-job rows of any prior state untouched. -/
theorem c8_save_failure_frame (job_id : Nat) (error : String) (s : WorldState) :
    save_failure job_id error =
      [Effect.ledgerWrite (LedgerWrite.markSchedulerJobFailed error job_id)] ∧
    (∀ e ∈ save_failure job_id error, putBlobKey e = none) ∧
    (applyEffects s (save_failure job_id error)).blobs = s.blobs ∧
    (applyEffects s (save_failure job_id error)).prover_jobs = s.prover_jobs ∧
    schedulerJobStatus (applyEffects s (save_failure job_id error)) job_id =
      some (JobStatus.Failed error) := by
  refine ⟨rfl, ?_, rfl, rfl, ?_⟩
  · intro e he
    simp [save_failure] at he
    subst he
    rfl
  · simp [save_failure, applyEffects, applyEffect, applyLedgerWrite,
      schedulerJobStatus, List.find?]

/-- C3 counterexample: with an object store whose operations fail with a
storage error, `prepare_job`'s blob get and `save_result`'s blob put both end
in a panic (Rust `unwrap`) — an uncontrolled process abort — instead of being
reported via `save_failure`. -/
theorem c3_counterexample :
    prepare_job setupFix 7 [] storeFailFix = Outcome.panicked "storage failure" ∧
    save_result storeFailFix 7 artifactFix = Outcome.panicked "storage failure" :=
  ⟨rfl, rfl⟩

/-- C3 (amended): a blob-store failure during `prepare_job`'s get of the
partial witness input, or during `save_result`'s put of the terminal circuit,
terminates the attempt by panicking with the storage error (via `unwrap`); no
effect trace — in particular no `save_failure` ledger write — is produced. -/
theorem c3_amended_storage_failure_panics (setup : VkSetupData)
    (object_store : ObjectStore) (n : Nat) (proofs : List ZkSyncRecursionProof)
    (artifacts : SchedulerArtifacts) (e e' : String)
    (hget : object_store.get_scheduler_partial_input n = Except.error e)
    (hput : object_store.put_circuit (schedulerCircuitKey n)
        (CircuitWrapper.Recursive artifacts.scheduler_circuit) = Except.error e') :
    prepare_job setup n proofs object_store = Outcome.panicked e ∧
    save_result object_store n artifacts = Outcome.panicked e' := by
  constructor
  · simp [prepare_job, hget]
  · simp [save_result, hput]

/-- C3 amended witness: the amended statement evaluated at the failing store. -/
theorem c3_amended_witness :
    prepare_job setupFix 7 [] storeFailFix = Outcome.panicked "storage failure" ∧
    save_result storeFailFix 7 artifactFix = Outcome.panicked "storage failure" :=
  c3_amended_storage_failure_panics setupFix storeFailFix 7 [] artifactFix
    "storage failure" "storage failure" rfl rfl

/-- C2 counterexample: with a dependency list containing a base-kind proof
wrapper, `get_next_job` does not fail with a typed input-contract-violation
error; it panics (an uncontrolled process abort) with the source's message. -/
theorem c2_counterexample :
    get_next_job connBaseFix setupFix storeBaseFix =
      Outcome.panicked "Expected only recursive proofs for scheduler l1 batch 5" := by
  rfl

/-- Helper: if any wrapper in the list is base-kind, the extraction panics
with the source's message (the map is evaluated sequentially and the panic
of the first base wrapper propagates). -/
theorem unwrap_recursive_proofs_panics_of_base (n p : Nat)
    (ws : List FriProofWrapper) (hbase : FriProofWrapper.Base p ∈ ws) :
    unwrap_recursive_proofs n ws =
      Outcome.panicked ("Expected only recursive proofs for scheduler l1 batch "
        ++ toString n) := by
  induction ws with
  | nil => cases hbase
  | cons w rest ih =>
    cases w with
    | Base q => rfl
    | Recursive r =>
      have hr : FriProofWrapper.Base p ∈ rest := by
        rcases List.mem_cons.mp hbase with h | h
        · simp at h
        · exact h
      rw [unwrap_recursive_proofs, ih hr]
      rfl

/-- C2 (amended): if the dependency proofs fetched for the next ready batch
contain a base-kind wrapper, `get_next_job` panics with the source's message
"Expected only recursive proofs for scheduler l1 batch ..." — it does not
return, and the failure is an uncontrolled process abort rather than a typed
input-contract-violation error value. -/
theorem c2_amended_base_wrapper_panics (conn : ProverConnection)
    (setup : VkSetupData) (object_store : ObjectStore) (n p : Nat)
    (wrappers : List FriProofWrapper)
    (hn : conn.get_next_scheduler_witness_job = some n)
    (hload : load_proofs_for_job_ids (conn.get_final_prover_job_ids_for n)
        object_store = Outcome.ok wrappers)
    (hbase : FriProofWrapper.Base p ∈ wrappers) :
    get_next_job conn setup object_store =
      Outcome.panicked ("Expected only recursive proofs for scheduler l1 batch "
        ++ toString n) := by
  simp only [get_next_job, hn, hload, Outcome.bind_ok,
    unwrap_recursive_proofs_panics_of_base n p wrappers hbase, Outcome.bind_panicked]

/-- C2 amended witness: the amended statement evaluated at the base-wrapper
fixture. -/
theorem c2_amended_witness :
    get_next_job connBaseFix setupFix storeBaseFix =
      Outcome.panicked ("Expected only recursive proofs for scheduler l1 batch "
        ++ toString 5) :=
  c2_amended_base_wrapper_panics connBaseFix setupFix storeBaseFix 5 0
    [FriProofWrapper.Base 0] rfl rfl (by simp)

/-- C6: `save_result` for batch `job_id` stores the terminal artifact under
exactly one blob key, namely block number = `job_id`, circuit id 1, sequence
number 0, depth 0, scheduler round, and its trace carries exactly one
downstream prover-job row insertion. -/
theorem c6_save_result_key_and_unique_insert (object_store : ObjectStore)
    (job_id : Nat) (artifacts : SchedulerArtifacts) (url : String)
    (h : object_store.put_circuit (schedulerCircuitKey job_id)
        (CircuitWrapper.Recursive artifacts.scheduler_circuit) = Except.ok url) :
    ∃ trace, save_result object_store job_id artifacts = Outcome.ok trace ∧
      trace.filterMap putBlobKey =
        [{ block_number := job_id, circuit_id := 1, sequence_number := 0,
           depth := 0, aggregation_round := AggregationRound.Scheduler }] ∧
      (ledgerWritesOf trace).countP isInsertProverJob = 1 := by
  refine ⟨[ Effect.putBlob (schedulerCircuitKey job_id)
              (CircuitWrapper.Recursive artifacts.scheduler_circuit) url,
            Effect.ledgerTxnCommit
              [ LedgerWrite.insertProverJob job_id 1 0 0 AggregationRound.Scheduler
                  url false,
                LedgerWrite.markSchedulerJobAsSuccessful job_id ] ], ?_, rfl, rfl⟩
  simp [save_result, h]

/-- C6 witness: the statement evaluated at the healthy fixture for batch 42. -/
theorem c6_witness :
    ∃ trace, save_result storeFix 42 artifactFix = Outcome.ok trace ∧
      trace.filterMap putBlobKey =
        [{ block_number := 42, circuit_id := 1, sequence_number := 0,
           depth := 0, aggregation_round := AggregationRound.Scheduler }] ∧
      (ledgerWritesOf trace).countP isInsertProverJob = 1 :=
  c6_save_result_key_and_unique_insert storeFix 42 artifactFix "blob_url_fix" rfl

/-- C9: the single prover-job row inserted by `save_result` carries as blob
url exactly the location returned by the blob-store put, and its identity
fields are exactly the fields of the key under which the blob was stored:
the ledger row always points at the artifact just persisted. -/
theorem c9_inserted_row_matches_blob (object_store : ObjectStore) (job_id : Nat)
    (artifacts : SchedulerArtifacts) (url : String)
    (h : object_store.put_circuit (schedulerCircuitKey job_id)
        (CircuitWrapper.Recursive artifacts.scheduler_circuit) = Except.ok url) :
    ∃ trace, save_result object_store job_id artifacts = Outcome.ok trace ∧
      Effect.putBlob (schedulerCircuitKey job_id)
        (CircuitWrapper.Recursive artifacts.scheduler_circuit) url ∈ trace ∧
      (ledgerWritesOf trace).filter isInsertProverJob =
        [LedgerWrite.insertProverJob (schedulerCircuitKey job_id).block_number
          (schedulerCircuitKey job_id).circuit_id
          (schedulerCircuitKey job_id).depth
          (schedulerCircuitKey job_id).sequence_number
          (schedulerCircuitKey job_id).aggregation_round url false] := by
  refine ⟨[ Effect.putBlob (schedulerCircuitKey job_id)
              (CircuitWrapper.Recursive artifacts.scheduler_circuit) url,
            Effect.ledgerTxnCommit
              [ LedgerWrite.insertProverJob job_id 1 0 0 AggregationRound.Scheduler
                  url false,
                LedgerWrite.markSchedulerJobAsSuccessful job_id ] ], ?_,
          List.mem_cons_self _ _, rfl⟩
  simp [save_result, h]

/-- C9 witness: the statement evaluated at the healthy fixture for batch 42. -/
theorem c9_witness :
    ∃ trace, save_result storeFix 42 artifactFix = Outcome.ok trace ∧
      Effect.putBlob (schedulerCircuitKey 42)
        (CircuitWrapper.Recursive artifactFix.scheduler_circuit) "blob_url_fix" ∈ trace ∧
      (ledgerWritesOf trace).filter isInsertProverJob =
        [LedgerWrite.insertProverJob (schedulerCircuitKey 42).block_number
          (schedulerCircuitKey 42).circuit_id
          (schedulerCircuitKey 42).depth
          (schedulerCircuitKey 42).sequence_number
          (schedulerCircuitKey 42).aggregation_round "blob_url_fix" false] :=
  c9_inserted_row_matches_blob storeFix 42 artifactFix "blob_url_fix" rfl

/-- Property asked by the claim's negation: does executing `save_result` pass
through an observable state in which the artifact blob is stored but the
scheduler job is not marked succeeded? -/
def partialVisibilityObservable (object_store : ObjectStore) (job_id : Nat)
    (artifacts : SchedulerArtifacts) : Bool :=
  match save_result object_store job_id artifacts with
  | Outcome.ok trace =>
      (statesAfterPrefixes emptyWorldState trace).any
        (fun s => blobStored s (schedulerCircuitKey job_id)
          && !(schedulerSucceeded s job_id))
  | Outcome.panicked _ => false

/-- C1 counterexample: on a successful run of `save_result` for batch 42, the
state after the blob put and before the ledger transaction commit is
observable, and there the artifact is stored while the ledger is not yet
updated — contradicting the claim that no such state is observable. -/
theorem c1_counterexample :
    partialVisibilityObservable storeFix 42 artifactFix = true := by decide

/-- C1 (amended): the two ledger writes of `save_result` — inserting the
downstream prover-job row and marking the scheduler job succeeded — are
issued inside one atomically committed transaction, so every observable state
shows either both or neither.  The blob put, however, is sequenced before the
transaction, so a state in which the artifact is stored but the ledger is not
yet updated is observable to another engine instance. -/
theorem c1_amended_ledger_atomic_blob_first (object_store : ObjectStore)
    (job_id : Nat) (artifacts : SchedulerArtifacts) (url : String)
    (h : object_store.put_circuit (schedulerCircuitKey job_id)
        (CircuitWrapper.Recursive artifacts.scheduler_circuit) = Except.ok url) :
    ∃ trace, save_result object_store job_id artifacts = Outcome.ok trace ∧
      (∃ writes,
        trace.filter (fun e => (putBlobKey e).isNone) =
          [Effect.ledgerTxnCommit writes] ∧
        LedgerWrite.insertProverJob job_id 1 0 0 AggregationRound.Scheduler
          url false ∈ writes ∧
        LedgerWrite.markSchedulerJobAsSuccessful job_id ∈ writes) ∧
      (∀ s ∈ statesAfterPrefixes emptyWorldState trace,
        proverJobInserted s job_id = schedulerSucceeded s job_id) ∧
      (∃ s ∈ statesAfterPrefixes emptyWorldState trace,
        blobStored s (schedulerCircuitKey job_id) = true ∧
        schedulerSucceeded s job_id = false) := by
  refine ⟨[ Effect.putBlob (schedulerCircuitKey job_id)
              (CircuitWrapper.Recursive artifacts.scheduler_circuit) url,
            Effect.ledgerTxnCommit
              [ LedgerWrite.insertProverJob job_id 1 0 0 AggregationRound.Scheduler
                  url false,
                LedgerWrite.markSchedulerJobAsSuccessful job_id ] ], ?_, ?_, ?_, ?_⟩
  · simp [save_result, h]
  · exact ⟨_, rfl, List.mem_cons_self _ _, List.mem_cons_of_mem _ (List.mem_cons_self _ _)⟩
  · intro s hs
    simp only [statesAfterPrefixes, applyEffect, applyLedgerWrite, List.foldl,
      List.mem_cons, List.mem_singleton, List.not_mem_nil, or_false] at hs
    rcases hs with rfl | rfl | rfl
    · rfl
    · rfl
    · simp [proverJobInserted, schedulerSucceeded, schedulerJobStatus,
        emptyWorldState, List.find?, List.any]
  · refine ⟨applyEffect emptyWorldState
      (Effect.putBlob (schedulerCircuitKey job_id)
        (CircuitWrapper.Recursive artifacts.scheduler_circuit) url), ?_, ?_, ?_⟩
    · simp [statesAfterPrefixes]
    · simp [applyEffect, blobStored, emptyWorldState, List.any]
    · rfl

/-- C1 amended witness: the amended statement evaluated at the healthy
fixture for batch 42. -/
theorem c1_amended_witness :
    ∃ trace, save_result storeFix 42 artifactFix = Outcome.ok trace ∧
      (∃ writes,
        trace.filter (fun e => (putBlobKey e).isNone) =
          [Effect.ledgerTxnCommit writes] ∧
        LedgerWrite.insertProverJob 42 1 0 0 AggregationRound.Scheduler
          "blob_url_fix" false ∈ writes ∧
        LedgerWrite.markSchedulerJobAsSuccessful 42 ∈ writes) ∧
      (∀ s ∈ statesAfterPrefixes emptyWorldState trace,
        proverJobInserted s 42 = schedulerSucceeded s 42) ∧
      (∃ s ∈ statesAfterPrefixes emptyWorldState trace,
        blobStored s (schedulerCircuitKey 42) = true ∧
        schedulerSucceeded s 42 = false) :=
  c1_amended_ledger_atomic_blob_first storeFix 42 artifactFix "blob_url_fix" rfl

/-- Helper: if every fetch in the id list succeeds, the loaded wrapper list is
the per-id fetch result in resolver-given order. -/
theorem load_proofs_for_job_ids_ok (object_store : ObjectStore)
    (f : Nat → FriProofWrapper) (ids : List Nat)
    (h : ∀ i ∈ ids, object_store.get_proof i = Except.ok (f i)) :
    load_proofs_for_job_ids ids object_store = Outcome.ok (ids.map f) := by
  induction ids with
  | nil => rfl
  | cons i rest ih =>
    rw [load_proofs_for_job_ids, h i (List.mem_cons_self i rest),
      ih (fun j hj => h j (List.mem_cons_of_mem i hj))]
    rfl

/-- Helper: extracting from a list of recursive-kind wrappers succeeds and
yields the inner proofs in order. -/
theorem unwrap_recursive_proofs_map (n : Nat)
    (ps : List ZkSyncRecursionLayerProof) :
    unwrap_recursive_proofs n (ps.map FriProofWrapper.Recursive) =
      Outcome.ok (ps.map (fun p => p.inner)) := by
  induction ps with
  | nil => rfl
  | cons p rest ih =>
    rw [List.map_cons, unwrap_recursive_proofs, ih]
    rfl

/-- Helper: when the partial input fetch succeeds and the leaf-parameter list
has the static width, `prepare_job` succeeds with the fully merged job. -/
theorem prepare_job_ok (setup : VkSetupData) (n : Nat)
    (proofs : List ZkSyncRecursionProof) (object_store : ObjectStore)
    (w : SchedulerPartialInputWrapper)
    (hw : object_store.get_scheduler_partial_input n = Except.ok w)
    (hl : (setup.leaf_vk_commits.map (fun el => el.2)).length
        = NUM_BASE_LAYER_CIRCUITS) :
    prepare_job setup n proofs object_store = Outcome.ok
      { block_number := n
        scheduler_witness :=
          { node_layer_vk_witness := setup.node_layer_vk.inner
            proof_witnesses := proofs
            leaf_layer_parameters := setup.leaf_vk_commits.map (fun el => el.2)
            other_fields := w.inner.other_fields }
        node_vk := setup.node_layer_vk } := by
  simp [prepare_job, hw, tryIntoFixedArray, hl]

/-- C4: when the resolver-given dependency ids all fetch successfully as
recursive-kind wrappers and the partial input is available, `get_next_job`
returns a job whose proof-witness list has exactly one entry per dependency
id and presents the inner proofs in exactly the resolver-given order. -/
theorem c4_dependency_count_and_order (conn : ProverConnection)
    (setup : VkSetupData) (object_store : ObjectStore) (n : Nat)
    (g : Nat → ZkSyncRecursionLayerProof) (w : SchedulerPartialInputWrapper)
    (hn : conn.get_next_scheduler_witness_job = some n)
    (hp : ∀ i ∈ conn.get_final_prover_job_ids_for n,
      object_store.get_proof i = Except.ok (FriProofWrapper.Recursive (g i)))
    (hw : object_store.get_scheduler_partial_input n = Except.ok w)
    (hl : (setup.leaf_vk_commits.map (fun el => el.2)).length
        = NUM_BASE_LAYER_CIRCUITS) :
    ∃ job, get_next_job conn setup object_store = Outcome.ok (some (n, job)) ∧
      job.scheduler_witness.proof_witnesses =
        (conn.get_final_prover_job_ids_for n).map (fun i => (g i).inner) ∧
      job.scheduler_witness.proof_witnesses.length =
        (conn.get_final_prover_job_ids_for n).length := by
  have hload := load_proofs_for_job_ids_ok object_store
    (fun i => FriProofWrapper.Recursive (g i)) (conn.get_final_prover_job_ids_for n) hp
  have hmap : (conn.get_final_prover_job_ids_for n).map
      (fun i => FriProofWrapper.Recursive (g i)) =
      ((conn.get_final_prover_job_ids_for n).map g).map FriProofWrapper.Recursive := by
    rw [List.map_map]
    rfl
  refine ⟨{ block_number := n
            scheduler_witness :=
              { node_layer_vk_witness := setup.node_layer_vk.inner
                proof_witnesses :=
                  (conn.get_final_prover_job_ids_for n).map (fun i => (g i).inner)
                leaf_layer_parameters := setup.leaf_vk_commits.map (fun el => el.2)
                other_fields := w.inner.other_fields }
            node_vk := setup.node_layer_vk }, ?_, rfl, by simp⟩
  simp only [get_next_job, hn, hload, Outcome.bind_ok]
  rw [hmap, unwrap_recursive_proofs_map, Outcome.bind_ok,
    prepare_job_ok setup n _ object_store w hw hl]
  simp [List.map_map, Function.comp]

/-- C4 witness: at a fixture with dependency ids in the non-monotone order
3, 1, 2, the returned job carries the three inner proofs in that order. -/
theorem c4_witness :
    ∃ job, get_next_job
        { get_next_scheduler_witness_job := some 9
          get_final_prover_job_ids_for := fun _ => [3, 1, 2] }
        setupFix storeFix = Outcome.ok (some (9, job)) ∧
      job.scheduler_witness.proof_witnesses =
        [3, 1, 2].map (fun i =>
          (({ inner := { data := i } } : ZkSyncRecursionLayerProof)).inner) ∧
      job.scheduler_witness.proof_witnesses.length = [3, 1, 2].length :=
  c4_dependency_count_and_order
    { get_next_scheduler_witness_job := some 9
      get_final_prover_job_ids_for := fun _ => [3, 1, 2] }
    setupFix storeFix 9 (fun i => { inner := { data := i } })
    { inner := witnessFix } rfl
    (by intro i hi; simp at hi; rcases hi with rfl | rfl | rfl <;> rfl)
    rfl (by decide)

/-- C5: the merge step of `prepare_job` overwrites the partial input's
node-layer verification-key field with the fetched node vk, installs the
ordered proof list, and attaches the leaf-layer parameter table exactly as
fetched when its length equals the pipeline's static width — and fails (a
panic from the fixed-size conversion's `unwrap`) when the length differs,
rather than silently padding or truncating. -/
theorem c5_merge_overwrites_and_checks_width (setup : VkSetupData) (n : Nat)
    (proofs : List ZkSyncRecursionProof) (object_store : ObjectStore)
    (w : SchedulerPartialInputWrapper)
    (hw : object_store.get_scheduler_partial_input n = Except.ok w) :
    ((setup.leaf_vk_commits.map (fun el => el.2)).length = NUM_BASE_LAYER_CIRCUITS →
      prepare_job setup n proofs object_store = Outcome.ok
        { block_number := n
          scheduler_witness :=
            { node_layer_vk_witness := setup.node_layer_vk.inner
              proof_witnesses := proofs
              leaf_layer_parameters := setup.leaf_vk_commits.map (fun el => el.2)
              other_fields := w.inner.other_fields }
          node_vk := setup.node_layer_vk }) ∧
    ((setup.leaf_vk_commits.map (fun el => el.2)).length ≠ NUM_BASE_LAYER_CIRCUITS →
      prepare_job setup n proofs object_store =
        Outcome.panicked "could not convert vector into fixed-size array") := by
  constructor
  · intro hl
    exact prepare_job_ok setup n proofs object_store w hw hl
  · intro hl
    have hl' : setup.leaf_vk_commits.length ≠ NUM_BASE_LAYER_CIRCUITS := by
      simpa using hl
    simp [prepare_job, hw, tryIntoFixedArray, hl']

/-- C5 witness: the merge statement evaluated at the healthy fixture, whose
leaf-parameter list has the static width, for batch 7. -/
theorem c5_witness :
    ((setupFix.leaf_vk_commits.map (fun el => el.2)).length
        = NUM_BASE_LAYER_CIRCUITS →
      prepare_job setupFix 7 [{ data := 1 }] storeFix = Outcome.ok
        { block_number := 7
          scheduler_witness :=
            { node_layer_vk_witness := setupFix.node_layer_vk.inner
              proof_witnesses := [{ data := 1 }]
              leaf_layer_parameters := setupFix.leaf_vk_commits.map (fun el => el.2)
              other_fields :=
                ({ inner := witnessFix } : SchedulerPartialInputWrapper).inner.other_fields }
          node_vk := setupFix.node_layer_vk }) ∧
    ((setupFix.leaf_vk_commits.map (fun el => el.2)).length
        ≠ NUM_BASE_LAYER_CIRCUITS →
      prepare_job setupFix 7 [{ data := 1 }] storeFix =
        Outcome.panicked "could not convert vector into fixed-size array") :=
  c5_merge_overwrites_and_checks_width setupFix 7 [{ data := 1 }] storeFix
    { inner := witnessFix } rfl

/-- Helper: any successful `prepare_job` result carries the batch number it
was called for, exactly the proof list it was given, and the partial input
fetched for that same batch. -/
theorem prepare_job_inv (setup : VkSetupData) (n : Nat)
    (proofs : List ZkSyncRecursionProof) (object_store : ObjectStore)
    (job : SchedulerWitnessGeneratorJob)
    (h : prepare_job setup n proofs object_store = Outcome.ok job) :
    job.block_number = n ∧ job.scheduler_witness.proof_witnesses = proofs ∧
    ∃ w, object_store.get_scheduler_partial_input n = Except.ok w ∧
      job.scheduler_witness.other_fields = w.inner.other_fields := by
  unfold prepare_job at h
  cases hw : object_store.get_scheduler_partial_input n with
  | error e => simp only [hw, unwrapResult_error, Outcome.bind_panicked] at h; cases h
  | ok w =>
    simp only [hw, unwrapResult_ok, Outcome.bind_ok] at h
    by_cases hl : (setup.leaf_vk_commits.map (fun el => el.2)).length
        = NUM_BASE_LAYER_CIRCUITS
    · simp only [tryIntoFixedArray, hl, if_pos, unwrapResult_ok, Outcome.bind_ok] at h
      injection h with h
      subst h
      exact ⟨rfl, rfl, w, rfl, rfl⟩
    · simp only [tryIntoFixedArray, hl, if_neg, unwrapResult_error,
        Outcome.bind_panicked] at h
      cases h

/-- C10: whenever `get_next_job` returns a job, the job's `block_number`
equals the returned job id, that id is the one the queue handed out, the
partial witness input inside the job was fetched for that same batch, and the
job's proof witnesses are the ones extracted from the wrappers loaded for
that batch's dependency job ids. -/
theorem c10_job_id_consistent (conn : ProverConnection) (setup : VkSetupData)
    (object_store : ObjectStore) (id : Nat) (job : SchedulerWitnessGeneratorJob)
    (h : get_next_job conn setup object_store = Outcome.ok (some (id, job))) :
    job.block_number = id ∧
    conn.get_next_scheduler_witness_job = some id ∧
    (∃ w, object_store.get_scheduler_partial_input id = Except.ok w ∧
      job.scheduler_witness.other_fields = w.inner.other_fields) ∧
    (∃ wrappers, load_proofs_for_job_ids (conn.get_final_prover_job_ids_for id)
        object_store = Outcome.ok wrappers ∧
      unwrap_recursive_proofs id wrappers =
        Outcome.ok job.scheduler_witness.proof_witnesses) := by
  unfold get_next_job at h
  cases hn : conn.get_next_scheduler_witness_job with
  | none => simp only [hn] at h; cases h
  | some n =>
    simp only [hn] at h
    cases hload : load_proofs_for_job_ids (conn.get_final_prover_job_ids_for n)
        object_store with
    | panicked m => simp only [hload, Outcome.bind_panicked] at h; cases h
    | ok wrappers =>
      simp only [hload, Outcome.bind_ok] at h
      cases hur : unwrap_recursive_proofs n wrappers with
      | panicked m => simp only [hur, Outcome.bind_panicked] at h; cases h
      | ok ps =>
        simp only [hur, Outcome.bind_ok] at h
        cases hpj : prepare_job setup n ps object_store with
        | panicked m => simp only [hpj, Outcome.bind_panicked] at h; cases h
        | ok job0 =>
          simp only [hpj, Outcome.bind_ok] at h
          injection h with h
          injection h with h
          have h1 : n = id := congrArg Prod.fst h
          have h2 : job0 = job := congrArg Prod.snd h
          subst h1
          subst h2
          obtain ⟨hb, hpw, w, hw, ho⟩ :=
            prepare_job_inv setup n ps object_store job0 hpj
          refine ⟨hb, rfl, ⟨w, hw, ho⟩, wrappers, hload, ?_⟩
          rw [hpw]
          exact hur

/-- A connection fixture: next ready batch 9 with dependency ids 3, 1, 2. -/
def connFix9 : ProverConnection :=
  { get_next_scheduler_witness_job := some 9
    get_final_prover_job_ids_for := fun _ => [3, 1, 2] }

/-- The job that `get_next_job` produces from `connFix9`, `setupFix` and
`storeFix`. -/
def jobFix : SchedulerWitnessGeneratorJob :=
  { block_number := 9
    scheduler_witness :=
      { node_layer_vk_witness := setupFix.node_layer_vk.inner
        proof_witnesses := [{ data := 3 }, { data := 1 }, { data := 2 }]
        leaf_layer_parameters := setupFix.leaf_vk_commits.map (fun el => el.2)
        other_fields := witnessFix.other_fields }
    node_vk := setupFix.node_layer_vk }

/-- C10 witness: the consistency statement evaluated at the batch-9 fixture. -/
theorem c10_witness :
    jobFix.block_number = 9 ∧
    connFix9.get_next_scheduler_witness_job = some 9 ∧
    (∃ w, storeFix.get_scheduler_partial_input 9 = Except.ok w ∧
      jobFix.scheduler_witness.other_fields = w.inner.other_fields) ∧
    (∃ wrappers, load_proofs_for_job_ids (connFix9.get_final_prover_job_ids_for 9)
        storeFix = Outcome.ok wrappers ∧
      unwrap_recursive_proofs 9 wrappers =
        Outcome.ok jobFix.scheduler_witness.proof_witnesses) :=
  c10_job_id_consistent connFix9 setupFix storeFix 9 jobFix (by decide)
